import Mathlib

/-!
Verification of the vote ledger, aggregation, feed pagination, topic and
error-handling logic of the Q&A application.

Shallow embedding conventions:
* database tables become lists of row structures, in insertion order;
* SQL `select ... where ... limit 1` becomes `List.filter` followed by `head?`;
* the route handlers become pure functions from the database state and the
  (already transport-decoded) request pieces to the new state and a response;
* the values that the handlers obtain from the environment (`generateId()`,
  `new Date()`, the authenticated user id) are passed as explicit arguments.
-/

namespace QuoraClone

/-- Embeds the `item_type` column enum (`src/db/schema`, votes table):
`text("item_type", { enum: ["question", "answer"] })`. -/
inductive ItemType where
  | question
  | answer
deriving DecidableEq

/-- Embeds the `vote_type` column enum (`src/db/schema`, votes table):
`text("vote_type", { enum: ["upvote", "downvote"] })`. -/
inductive VoteType where
  | upvote
  | downvote
deriving DecidableEq

/-- Embeds a row of the `votes` table (`src/db/schema`): columns
`id, user_id, item_id, item_type, vote_type, created_at`.
Timestamps are modelled as integers. -/
structure Vote where
  id : String
  userId : String
  itemId : String
  itemType : ItemType
  voteType : VoteType
  createdAt : Int
deriving DecidableEq

/-- Embeds the interpolation `${body.itemType}` / `${itemType}` used in the
`not found` error messages of the votes routes. -/
def itemTypeName : ItemType → String
  | .question => "question"
  | .answer => "answer"

/-- Embeds the shape `{upvotes, downvotes, total}` returned by
`getItemVoteCounts` in `src/lib/api-utils.ts`. -/
structure VoteCounts where
  upvotes : Nat
  downvotes : Nat
  total : Int
deriving DecidableEq

/-- Embeds the SQL fragment `CASE WHEN <p> THEN 1 END`: the row yields the
value 1 when the condition holds and NULL (here `none`) otherwise. -/
def caseWhen (p : Vote → Bool) (v : Vote) : Option Nat :=
  if p v then some 1 else none

/-- Embeds SQL `count(<expr>)`: the number of rows whose expression is
non-NULL. -/
def sqlCountNonNull (xs : List (Option Nat)) : Nat :=
  (xs.filter Option.isSome).length

/-- Embeds the `WHERE` clause of `getItemVoteCounts`
(`src/lib/api-utils.ts`): `votes.itemId = itemId AND votes.itemType = itemType`. -/
def voteTargetWhere (itemId : String) (itemType : ItemType) (v : Vote) : Bool :=
  v.itemId == itemId && v.itemType == itemType

/-- Embeds `getItemVoteCounts` (`src/lib/api-utils.ts`): a single aggregate
query over the live `votes` rows computing
`upvotes = count(CASE WHEN vote_type = 'upvote' THEN 1 END)`,
`downvotes = count(CASE WHEN vote_type = 'downvote' THEN 1 END)` over the
rows of the given target, and `total = upvotes - downvotes`. -/
def getItemVoteCounts (rows : List Vote) (itemId : String) (itemType : ItemType) : VoteCounts :=
  let filtered := rows.filter (voteTargetWhere itemId itemType)
  let up := sqlCountNonNull (filtered.map (caseWhen (fun v => v.voteType == .upvote)))
  let down := sqlCountNonNull (filtered.map (caseWhen (fun v => v.voteType == .downvote)))
  { upvotes := up, downvotes := down, total := (up : Int) - (down : Int) }

/-- Embeds the slice of the database that the votes routes touch: the ids of
the existing questions and answers (used only for the existence checks) and
the `votes` table rows. -/
structure VoteDB where
  questions : List String
  answers : List String
  votes : List Vote
deriving DecidableEq

/-- Embeds the kind-specific existence check at the top of the votes `POST`
and `DELETE` handlers (`select({id}) ... where(eq(id, itemId)).limit(1)`,
then `if (!itemExists.length)`). -/
def itemExists (db : VoteDB) (itemId : String) (itemType : ItemType) : Bool :=
  match itemType with
  | .question => db.questions.contains itemId
  | .answer => db.answers.contains itemId

/-- Embeds the `WHERE` clause shared by the existing-vote lookups:
`votes.userId = uid AND votes.itemId = iid AND votes.itemType = ity`. -/
def voteTripleMatch (uid iid : String) (ity : ItemType) (v : Vote) : Bool :=
  v.userId == uid && v.itemId == iid && v.itemType == ity

/-- Rows of the `votes` table belonging to one (voter, target id, target
kind) triple. -/
def votesFor (rows : List Vote) (uid iid : String) (ity : ItemType) : List Vote :=
  rows.filter (voteTripleMatch uid iid ity)

/-- Embeds the existing-vote lookup
`select().from(votes).where(and(userId, itemId, itemType)).limit(1)`
used by both votes handlers and by `getUserVote`. -/
def findExistingVote (rows : List Vote) (uid iid : String) (ity : ItemType) : Option Vote :=
  (votesFor rows uid iid ity).head?

/-- Embeds the body accepted by `createVoteSchema` (`src/lib/validations`):
`{itemId, itemType, voteType}` with the enums already validated. -/
structure VoteBody where
  itemId : String
  itemType : ItemType
  voteType : VoteType
deriving DecidableEq

/-- Response envelope of the vote handlers: `createSuccessResponse(data,
message)` or `createErrorResponse(error, status)` (`src/lib/api-utils.ts`). -/
inductive Resp (α : Type) where
  | ok (data : α) (message : String)
  | err (error : String) (status : Nat)
deriving DecidableEq

/-- Data part of the votes `POST` success response:
`{vote, voteCounts, userVoteType}`. -/
structure CastVoteData where
  vote : Option Vote
  voteCounts : VoteCounts
  userVoteType : Option VoteType
deriving DecidableEq

/-- Embeds the votes `POST` handler (castVote). Arguments `uid` (the
authenticated user, `requireAuth` already passed), `b` (the
`createVoteSchema`-validated body), `newId` (the `generateId()` value used if
a row is inserted) and `now` (the `new Date()` value) are explicit.
Mirrors the source: kind-specific existence check, lookup of the existing
vote for the (user, item, kind) triple, then toggle-off (delete by row id),
switch (update vote type and timestamp by row id) or insert. -/
def castVote (db : VoteDB) (uid : String) (b : VoteBody) (newId : String) (now : Int) :
    VoteDB × Resp CastVoteData :=
  if itemExists db b.itemId b.itemType then
    match findExistingVote db.votes uid b.itemId b.itemType with
    | some existing =>
      if existing.voteType = b.voteType then
        let votes2 := db.votes.filter (fun v => v.id != existing.id)
        (⟨db.questions, db.answers, votes2⟩,
          .ok { vote := none,
                voteCounts := getItemVoteCounts votes2 b.itemId b.itemType,
                userVoteType := none } "Vote removed successfully")
      else
        let upd := fun v =>
          if v.id == existing.id then
            { v with voteType := b.voteType, createdAt := now }
          else v
        let votes2 := db.votes.map upd
        let updated := { existing with voteType := b.voteType, createdAt := now }
        (⟨db.questions, db.answers, votes2⟩,
          .ok { vote := some updated,
                voteCounts := getItemVoteCounts votes2 b.itemId b.itemType,
                userVoteType := some b.voteType } "Vote recorded successfully")
    | none =>
      let newVote : Vote :=
        { id := newId, userId := uid, itemId := b.itemId, itemType := b.itemType,
          voteType := b.voteType, createdAt := now }
      let votes2 := db.votes ++ [newVote]
      (⟨db.questions, db.answers, votes2⟩,
        .ok { vote := some newVote,
              voteCounts := getItemVoteCounts votes2 b.itemId b.itemType,
              userVoteType := some b.voteType } "Vote recorded successfully")
  else
    (db, .err (itemTypeName b.itemType ++ " not found") 404)

/-- Data part of the votes `DELETE` success response:
`{voteCounts, userVoteType}` (the latter always null there). -/
structure RemoveVoteData where
  voteCounts : VoteCounts
  userVoteType : Option VoteType
deriving DecidableEq

/-- Embeds the votes `DELETE` handler (removeVote) after its query-string
guard: existence check for the target, lookup of the vote of the
authenticated user on it, error 404 when no such vote exists, otherwise
deletion by row id followed by a fresh tally recomputation. -/
def removeVoteCore (db : VoteDB) (uid iid : String) (ity : ItemType) :
    VoteDB × Resp RemoveVoteData :=
  if itemExists db iid ity then
    match findExistingVote db.votes uid iid ity with
    | none => (db, .err "No vote found for this item" 404)
    | some existing =>
      let votes2 := db.votes.filter (fun v => v.id != existing.id)
      (⟨db.questions, db.answers, votes2⟩,
        .ok { voteCounts := getItemVoteCounts votes2 iid ity,
              userVoteType := none } "Vote removed successfully")
  else
    (db, .err (itemTypeName ity ++ " not found") 404)

/-- Embeds the `itemType` decoding of the votes `DELETE` query string
together with the membership test `["question", "answer"].includes`. -/
def parseItemType (s : String) : Option ItemType :=
  if s == "question" then some .question
  else if s == "answer" then some .answer
  else none

/-- Embeds the votes `DELETE` handler including the
`if (!itemId || !itemType || !includes(itemType))` guard (a missing
parameter arrives as null; an empty string is falsy in JavaScript). -/
def removeVote (db : VoteDB) (uid : String) (itemIdP itemTypeP : Option String) :
    VoteDB × Resp RemoveVoteData :=
  match itemIdP, itemTypeP with
  | some iid, some tys =>
    if iid == "" then
      (db, .err "itemId and itemType (question/answer) are required" 400)
    else
      match parseItemType tys with
      | some ity => removeVoteCore db uid iid ity
      | none => (db, .err "itemId and itemType (question/answer) are required" 400)
  | _, _ => (db, .err "itemId and itemType (question/answer) are required" 400)

/-! Ledger operation sequences (for the uniqueness invariant). -/

/-- Key equality behind the `votes_user_item_unique UNIQUE (user_id,
item_id, item_type)` constraint of the `votes` table (database schema and
migration SQL). -/
def sameVoteKey (a b : Vote) : Prop :=
  a.userId = b.userId ∧ a.itemId = b.itemId ∧ a.itemType = b.itemType

/-- States that a list of rows is admissible for the `votes` table: the
`votes_user_item_unique` uniqueness constraint rejects any two rows sharing
the (user_id, item_id, item_type) key. -/
def votesUniqueConstraint (rows : List Vote) : Prop :=
  rows.Pairwise fun a b => ¬ sameVoteKey a b

instance (a b : Vote) : Decidable (sameVoteKey a b) := by
  unfold sameVoteKey
  infer_instance

/-- One call to a mutating vote endpoint: the `POST` (castVote) or the
`DELETE` (removeVote) handler, with its environment-supplied values. -/
inductive LedgerOp where
  | castOp (uid : String) (b : VoteBody) (newId : String) (now : Int)
  | removeOp (uid iid : String) (ity : ItemType)

/-- State transition of one ledger operation (the response is dropped). -/
def applyOp (db : VoteDB) : LedgerOp → VoteDB
  | .castOp uid b newId now => (castVote db uid b newId now).1
  | .removeOp uid iid ity => (removeVoteCore db uid iid ity).1

/-- State after a sequence of castVote / removeVote calls. -/
def applyOps (db : VoteDB) (ops : List LedgerOp) : VoteDB :=
  ops.foldl applyOp db

/-! Error handler (`handleApiError` in `src/lib/api-utils.ts`). -/

/-- Models a JavaScript thrown value as seen by `handleApiError`: either an
`Error` instance carrying its `message`, or any non-`Error` throwable. -/
inductive Thrown where
  | errObj (message : String)
  | nonError
deriving DecidableEq

/-- Body and status of `createErrorResponse(error, status)`. -/
structure ErrResp where
  error : String
  status : Nat
deriving DecidableEq

/-- Substring search over the tail positions of the haystack; embeds
JavaScript `String.prototype.includes`. -/
def containsSubAux (sub : List Char) : List Char → Bool
  | [] => sub.isEmpty
  | c :: rest => sub.isPrefixOf (c :: rest) || containsSubAux sub rest

/-- Embeds `message.includes(needle)`. -/
def strContainsSub (s sub : String) : Bool :=
  containsSubAux sub.toList s.toList

/-- Embeds `handleApiError` (`src/lib/api-utils.ts`): exact match on
"Authentication required" gives 401, a message containing "not found" gives
404, one containing "unauthorized" gives 403, any other `Error` instance is
answered with status 500 and its own message as the body, and a non-`Error`
throwable with status 500 and the generic "Internal server error". The
`console.error` logging is outside the response model. -/
def handleApiError (e : Thrown) : ErrResp :=
  match e with
  | .errObj msg =>
    if msg == "Authentication required" then ⟨"Authentication required", 401⟩
    else if strContainsSub msg "not found" then ⟨"Resource not found", 404⟩
    else if strContainsSub msg "unauthorized" then ⟨"Unauthorized", 403⟩
    else ⟨msg, 500⟩
  | .nonError => ⟨"Internal server error", 500⟩

/-! JavaScript string primitives used by the validation schemas
(`src/lib/validations`). -/

/-- Whitespace set of JavaScript: the characters matched by the regular
expression class `\s`, which is also exactly the set removed by
`String.prototype.trim`. -/
def jsSpaceChar (c : Char) : Bool :=
  decide (c.toNat = 9 ∨ c.toNat = 10 ∨ c.toNat = 11 ∨ c.toNat = 12 ∨ c.toNat = 13 ∨
    c.toNat = 32 ∨ c.toNat = 160 ∨ c.toNat = 0x1680 ∨
    (0x2000 ≤ c.toNat ∧ c.toNat ≤ 0x200A) ∨
    c.toNat = 0x2028 ∨ c.toNat = 0x2029 ∨ c.toNat = 0x202F ∨ c.toNat = 0x205F ∨
    c.toNat = 0x3000 ∨ c.toNat = 0xFEFF)

/-- Embeds `String.prototype.trim` on the character list. -/
def jsTrim (l : List Char) : List Char :=
  ((l.dropWhile jsSpaceChar).reverse.dropWhile jsSpaceChar).reverse

/-- Embeds `toLowerCase` on one character for the ASCII range (the inputs
of interest contain no character with a non-ASCII case mapping). -/
def jsLowerChar (c : Char) : Char :=
  if 65 ≤ c.toNat ∧ c.toNat ≤ 90 then Char.ofNat (c.toNat + 32) else c

/-- Embeds `String.prototype.toLowerCase` on the character list. -/
def jsToLowerCase (l : List Char) : List Char :=
  l.map jsLowerChar

/-- Embeds `replace(/\s+/g, '-')`: every maximal run of whitespace becomes
one hyphen. The flag records whether the previous character was part of a
whitespace run already replaced. -/
def collapseWsAux (inRun : Bool) : List Char → List Char
  | [] => []
  | c :: rest =>
    if jsSpaceChar c then
      if inRun then collapseWsAux true rest
      else '-' :: collapseWsAux true rest
    else c :: collapseWsAux false rest

/-- Embeds the slug transform of `createTopicSchema`
(`src/lib/validations`): `val.trim().toLowerCase().replace(/\s+/g, '-')`. -/
def slugTransform (s : String) : String :=
  (collapseWsAux false (jsToLowerCase (jsTrim s.toList))).asString

/-- Embeds the name transform of `createTopicSchema`:
`val.trim().toLowerCase()`. -/
def nameTransform (s : String) : String :=
  (jsToLowerCase (jsTrim s.toList)).asString

/-! Zod parsing of the query string and of the topic body. -/

/-- Value of one property handed to a zod schema: `undef` for an absent
property, `jsNull` for `null` (what `searchParams.get` yields for an absent
query parameter), a string, or any other JSON value. -/
inductive JsVal where
  | undef
  | jsNull
  | jsStr (s : String)
  | jsOther
deriving DecidableEq

/-- Embeds the JavaScript `Number()` coercion as far as the schemas
exercise it: `null` and the empty (or all-whitespace) string give 0, an
optionally negated decimal digit string gives that integer, everything else
is collapsed to `none`. (`none` stands for NaN and also for non-integer
numeric results; zod rejects both, the former at the number check and the
latter at the `.int()` check, so the parse outcome is the same.) -/
def jsNumberString (s : String) : Option Int :=
  let cs := jsTrim s.toList
  match cs with
  | [] => some 0
  | '-' :: rest =>
    if rest ≠ [] ∧ rest.all Char.isDigit then
      some (-(rest.foldl (fun acc c => acc * 10 + (c.toNat - 48)) 0 : Nat))
    else none
  | _ =>
    if cs.all Char.isDigit then
      some ((cs.foldl (fun acc c => acc * 10 + (c.toNat - 48)) 0 : Nat))
    else none

/-- Embeds `Number()` on a schema input value. -/
def jsToNumber : JsVal → Option Int
  | .undef => none
  | .jsNull => some 0
  | .jsStr s => jsNumberString s
  | .jsOther => none

/-- Embeds `z.coerce.number().int().positive()[.max 50].default(dflt)`:
the default applies only to an absent (undefined) property, never to
`null`; any other value is coerced with `Number()` first and then checked.
The error strings abbreviate the zod issue texts; none of them contains the
substrings `handleApiError` matches on, exactly as for the real texts. -/
def zodPosIntField (dflt : Int) (maxBound : Option Int) (v : JsVal) : Except String Int :=
  match v with
  | .undef => .ok dflt
  | _ =>
    match jsToNumber v with
    | none => .error "Expected number, received nan"
    | some n =>
      if n ≤ 0 then .error "Number must be greater than 0"
      else
        match maxBound with
        | some m => if m < n then .error "Number must be less than or equal to 50" else .ok n
        | none => .ok n

/-- Sort orders accepted by `questionsQuerySchema`. -/
inductive SortKind where
  | recent
  | mostVoted
deriving DecidableEq

/-- Embeds `z.enum(["recent", "most_voted"]).default("recent")`: the
default again applies only to an absent property. -/
def zodSortField (v : JsVal) : Except String SortKind :=
  match v with
  | .undef => .ok .recent
  | .jsStr s =>
    if s == "recent" then .ok .recent
    else if s == "most_voted" then .ok .mostVoted
    else .error "Invalid enum value. Expected recent or most_voted"
  | _ => .error "Expected recent or most_voted, received null"

/-- Embeds `z.string().optional()`: only an absent (undefined) property is
accepted as missing; `null` is a type error. -/
def zodOptStringField (v : JsVal) : Except String (Option String) :=
  match v with
  | .undef => .ok none
  | .jsStr s => .ok (some s)
  | _ => .error "Expected string, received null"

/-- Parsed query of the questions listing. -/
structure QuestionsQuery where
  page : Int
  limit : Int
  sort : SortKind
  topic : Option String
deriving DecidableEq

/-- Embeds `questionsQuerySchema` (`src/lib/validations`): page and limit
are coerced positive integers with defaults 1 and 20 and limit capped at
50, sort is the enum with default `recent`, topic an optional string. Zod
collects the issues of all properties; the embedding returns the first
failing property, which yields the same thrown-versus-parsed outcome. -/
def questionsQuerySchema (page limit sort topic : JsVal) : Except String QuestionsQuery :=
  match zodPosIntField 1 none page with
  | .error m => .error m
  | .ok p =>
    match zodPosIntField 20 (some 50) limit with
    | .error m => .error m
    | .ok l =>
      match zodSortField sort with
      | .error m => .error m
      | .ok s =>
        match zodOptStringField topic with
        | .error m => .error m
        | .ok t => .ok ⟨p, l, s, t⟩

/-- Embeds `searchParams.get(key)`: an absent query parameter is `null`,
never `undefined`. -/
def searchParamGet : Option String → JsVal
  | none => .jsNull
  | some s => .jsStr s

/-! Feed query engine (`GET /api/questions`). -/

/-- Embeds a row of the `questions` table as far as the listing logic needs
it (the remaining columns travel through the query unchanged). -/
structure QuestionRow where
  id : String
  createdAt : Int
deriving DecidableEq

/-- Embeds a row of the `topics` table. -/
structure TopicRow where
  id : String
  name : String
  slug : String
  description : Option String
deriving DecidableEq

/-- Embeds a row of the `question_topics` join table. -/
structure QuestionTopicRow where
  questionId : String
  topicId : String
deriving DecidableEq

/-- Embeds the database slice read by the questions listing. -/
structure FeedDB where
  questions : List QuestionRow
  topics : List TopicRow
  questionTopics : List QuestionTopicRow
  votes : List Vote
deriving DecidableEq

/-- Embeds `array_agg(t.name)` for one question under the two left joins of
the listing query: the topic names reached through `question_topics`
(a NULL entry produced by a dangling topic id never overlaps a string, so
it is dropped here). -/
def questionTopicNames (d : FeedDB) (qid : String) : List String :=
  (d.questionTopics.filter (fun qt => qt.questionId == qid)).filterMap
    (fun qt => (d.topics.find? (fun t => t.id == qt.topicId)).map TopicRow.name)

/-- Embeds the `HAVING array_agg(t.name) && ARRAY[topic]` filter of the
listing query: the aggregated topic NAME array must contain the filter
string. -/
def havingTopicNameOverlap (d : FeedDB) (f : String) (q : QuestionRow) : Bool :=
  (questionTopicNames d q.id).contains f

/-- Net score of a question, as the listing query computes it from the
votes join (`COUNT(upvote cases) - COUNT(downvote cases)`); the same
formula as `getItemVoteCounts`. -/
def questionNet (d : FeedDB) (qid : String) : Int :=
  (getItemVoteCounts d.votes qid .question).total

/-- Comparator realising the `ORDER BY` of the listing query: `recent`
orders by creation time descending, `most_voted` by net score descending
with creation time descending as tie-break. -/
def questionLE (d : FeedDB) (s : SortKind) (a b : QuestionRow) : Bool :=
  match s with
  | .recent => decide (b.createdAt ≤ a.createdAt)
  | .mostVoted =>
    if questionNet d a.id = questionNet d b.id then decide (b.createdAt ≤ a.createdAt)
    else decide (questionNet d b.id ≤ questionNet d a.id)

/-- Declarative `ORDER BY` rendered as a sort of the grouped rows. -/
def sortQuestions (d : FeedDB) (s : SortKind) (l : List QuestionRow) : List QuestionRow :=
  List.insertionSort (fun a b => questionLE d s a b = true) l

/-- Embeds the total-count query of the listing when a topic filter is
present: `count()` over `questions` inner-joined with `question_topics` and
`topics` restricted to `topics.slug = f` — it counts join rows whose topic
SLUG matches. -/
def topicSlugCountJoin (d : FeedDB) (f : String) : Nat :=
  (d.questions.flatMap (fun q =>
    (d.questionTopics.filter (fun qt => qt.questionId == q.id)).flatMap (fun qt =>
      d.topics.filter (fun t => t.id == qt.topicId && t.slug == f)))).length

/-- Embeds the pagination block `createSuccessResponse` attaches:
`{page, limit, total, totalPages: Math.ceil(total / limit)}`. -/
structure PaginationMeta where
  page : Int
  limit : Int
  total : Nat
  totalPages : Int
deriving DecidableEq

/-- Embeds `Math.ceil(total / limit)` over exact arithmetic. -/
def mathCeilDiv (total : Nat) (limit : Int) : Int :=
  ⌈(total : ℚ) / (limit : ℚ)⌉

/-- Embeds `getPaginationParams` (`src/lib/api-utils.ts`):
`{limit, offset = (page - 1) * limit}`. -/
def getPaginationParams (page limit : Int) : Int × Int :=
  (limit, (page - 1) * limit)

/-- Response of the questions listing route: the page of question rows with
the pagination block, or an error response. -/
inductive ListResp where
  | ok (data : List QuestionRow) (message : String) (pagination : PaginationMeta)
  | err (error : String) (status : Nat)
deriving DecidableEq

/-- Embeds `GET /api/questions` (`src/app/api/questions/route.ts`): the
four query parameters are read with `searchParams.get`, parsed by
`questionsQuerySchema` (a failure is thrown and lands in `handleApiError`),
the grouped rows are filtered by topic NAME overlap when a topic filter is
present, sorted, then sliced with limit and offset; the total for the
pagination metadata is the plain question count without a filter and the
topic-SLUG join count with one. -/
def listQuestionsRoute (d : FeedDB) (pageP limitP sortP topicP : Option String) : ListResp :=
  match questionsQuerySchema (searchParamGet pageP) (searchParamGet limitP)
      (searchParamGet sortP) (searchParamGet topicP) with
  | .error msg =>
    let e := handleApiError (.errObj msg)
    .err e.error e.status
  | .ok q =>
    let lo := getPaginationParams q.page q.limit
    let base :=
      match q.topic with
      | some f => d.questions.filter (havingTopicNameOverlap d f)
      | none => d.questions
    let sorted := sortQuestions d q.sort base
    let rows := (sorted.drop lo.2.toNat).take lo.1.toNat
    let total :=
      match q.topic with
      | some f => topicSlugCountJoin d f
      | none => d.questions.length
    .ok rows "Questions retrieved successfully"
      ⟨q.page, q.limit, total, mathCeilDiv total q.limit⟩

/-! Topic creation (`POST /api/topics`). -/

/-- Raw JSON body of a topic creation request, property by property. -/
structure RawTopicBody where
  name : JsVal
  slug : JsVal
  description : JsVal
deriving DecidableEq

/-- Output type of `createTopicSchema`. -/
structure CreateTopicInput where
  name : String
  slug : String
  description : Option String
deriving DecidableEq

/-- Embeds the `name` property of `createTopicSchema`:
`z.string().min(1).max(50).transform(trim + toLowerCase)`; the length
checks run on the original string, the transform after them. -/
def zodTopicName (v : JsVal) : Except String String :=
  match v with
  | .jsStr s =>
    if s.length < 1 then .error "Topic name is required"
    else if 50 < s.length then .error "Topic name cannot exceed 50 characters"
    else .ok (nameTransform s)
  | .undef => .error "Required"
  | _ => .error "Expected string, received null"

/-- Embeds the `slug` property of `createTopicSchema`:
`z.string().min(1).max(50).transform(slug transform)`. -/
def zodTopicSlug (v : JsVal) : Except String String :=
  match v with
  | .jsStr s =>
    if s.length < 1 then .error "Slug is required"
    else if 50 < s.length then .error "Slug cannot exceed 50 characters"
    else .ok (slugTransform s)
  | .undef => .error "Required"
  | _ => .error "Expected string, received null"

/-- Embeds the `description` property: `z.string().max(200).optional()`. -/
def zodTopicDescription (v : JsVal) : Except String (Option String) :=
  match v with
  | .undef => .ok none
  | .jsStr s =>
    if 200 < s.length then .error "Description cannot exceed 200 characters"
    else .ok (some s)
  | _ => .error "Expected string, received null"

/-- Embeds `createTopicSchema` (`src/lib/validations`). As for the query
schema, the first failing property is reported. -/
def createTopicSchema (b : RawTopicBody) : Except String CreateTopicInput :=
  match zodTopicName b.name with
  | .error m => .error m
  | .ok n =>
    match zodTopicSlug b.slug with
    | .error m => .error m
    | .ok sl =>
      match zodTopicDescription b.description with
      | .error m => .error m
      | .ok d => .ok ⟨n, sl, d⟩

/-- Embeds the JavaScript `body.description || null` at the insert site:
an empty string is falsy and becomes null. -/
def jsOrNull (v : Option String) : Option String :=
  match v with
  | some s => if s == "" then none else some s
  | none => none

/-- Embeds `POST /api/topics` (`src/app/api/topics/route.ts`). The handler
performs no authentication: it validates the body (`request.json()` may
itself throw with some syntax message, then `createTopicSchema` may throw),
rejects a duplicate name or slug with 409, and otherwise inserts the topic.
Thrown errors land in `handleApiError`. -/
def topicsPOST (d : List TopicRow) (body : Except String RawTopicBody) (newId : String) :
    List TopicRow × Resp TopicRow :=
  match body with
  | .error msg =>
    let e := handleApiError (.errObj msg)
    (d, .err e.error e.status)
  | .ok raw =>
    match createTopicSchema raw with
    | .error msg =>
      let e := handleApiError (.errObj msg)
      (d, .err e.error e.status)
    | .ok input =>
      if d.any (fun t => t.name == input.name || t.slug == input.slug) then
        (d, .err "Topic with this name or slug already exists" 409)
      else
        let t : TopicRow := ⟨newId, input.name, input.slug, jsOrNull input.description⟩
        (d ++ [t], .ok t "Topic created successfully")

/-- HTTP status of a vote or topic response (`none` for a success). -/
def respStatus {α : Type} : Resp α → Option Nat
  | .ok _ _ => none
  | .err _ s => some s

/-! Concrete sample data used by the witnesses and counterexamples. -/

/-- Sample ledger state: one question, one answer, no votes. -/
def sampleVoteDB : VoteDB := ⟨["q1"], ["a1"], []⟩

/-- Sample vote row. -/
def sampleVoteRow : Vote := ⟨"v1", "u1", "q1", .question, .upvote, 3⟩

/-- Sample ledger state holding one vote. -/
def sampleVoteDB2 : VoteDB := ⟨["q1"], ["a1"], [sampleVoteRow]⟩

/-- Feed state with one topic whose name ("science") differs from its slug
("science-topic") and one question tagged with it. -/
def mismatchFeedDB : FeedDB :=
  ⟨[⟨"q1", 100⟩], [⟨"t1", "science", "science-topic", none⟩], [⟨"q1", "t1"⟩], []⟩

/-! Helper lemmas about the ledger embedding. -/

/-- Counting the non-NULL results of a CASE expression is counting the rows
satisfying its condition. -/
theorem sqlCountNonNull_map_caseWhen (p : Vote → Bool) (l : List Vote) :
    sqlCountNonNull (l.map (caseWhen p)) = (l.filter p).length := by
  induction l with
  | nil => rfl
  | cons v t ih =>
    by_cases h : p v <;>
      simp [sqlCountNonNull, caseWhen, h, List.filter_cons] at ih ⊢ <;>
      omega

/-- Characterisation of the vote triple filter. -/
theorem voteTripleMatch_iff (uid iid : String) (ity : ItemType) (v : Vote) :
    voteTripleMatch uid iid ity v = true ↔
      v.userId = uid ∧ v.itemId = iid ∧ v.itemType = ity := by
  simp [voteTripleMatch, and_assoc]

/-- A negative existing-vote lookup is an empty triple row set. -/
theorem findExistingVote_eq_none_iff (rows : List Vote) (uid iid : String) (ity : ItemType) :
    findExistingVote rows uid iid ity = none ↔ votesFor rows uid iid ity = [] := by
  simp [findExistingVote, List.head?_eq_none_iff]

/-- Triple projection distributes over append. -/
theorem votesFor_append (l1 l2 : List Vote) (uid iid : String) (ity : ItemType) :
    votesFor (l1 ++ l2) uid iid ity = votesFor l1 uid iid ity ++ votesFor l2 uid iid ity := by
  simp [votesFor]

/-- Triple projection commutes with any row filter. -/
theorem votesFor_filter (l : List Vote) (p : Vote → Bool) (uid iid : String) (ity : ItemType) :
    votesFor (l.filter p) uid iid ity = (votesFor l uid iid ity).filter p := by
  simp only [votesFor, List.filter_filter]
  exact List.filter_congr fun v _ => by
    cases h1 : voteTripleMatch uid iid ity v <;> cases h2 : p v <;> simp [h1, h2]

/-- Triple projection commutes with a map that does not touch the key
columns. -/
theorem votesFor_map (l : List Vote) (f : Vote → Vote) (uid iid : String) (ity : ItemType)
    (hf : ∀ v, voteTripleMatch uid iid ity (f v) = voteTripleMatch uid iid ity v) :
    votesFor (l.map f) uid iid ity = (votesFor l uid iid ity).map f := by
  simp only [votesFor]
  rw [List.filter_map]
  congr 1
  exact List.filter_congr fun v _ => hf v

/-- Two rows matching the same triple share the uniqueness key. -/
theorem sameVoteKey_of_match (uid iid : String) (ity : ItemType) {a b : Vote}
    (ha : voteTripleMatch uid iid ity a = true) (hb : voteTripleMatch uid iid ity b = true) :
    sameVoteKey a b := by
  obtain ⟨ha1, ha2, ha3⟩ := (voteTripleMatch_iff uid iid ity a).mp ha
  obtain ⟨hb1, hb2, hb3⟩ := (voteTripleMatch_iff uid iid ity b).mp hb
  exact ⟨ha1.trans hb1.symm, ha2.trans hb2.symm, ha3.trans hb3.symm⟩

/-- Under the uniqueness constraint a triple owns at most one row. -/
theorem votesFor_length_le_one (rows : List Vote) (uid iid : String) (ity : ItemType)
    (hu : votesUniqueConstraint rows) :
    (votesFor rows uid iid ity).length ≤ 1 := by
  cases hl : votesFor rows uid iid ity with
  | nil => simp
  | cons a t =>
    cases t with
    | nil => simp
    | cons b t2 =>
      exfalso
      have hp : (votesFor rows uid iid ity).Pairwise (fun a b => ¬ sameVoteKey a b) :=
        hu.sublist (List.filter_sublist rows)
      rw [hl, List.pairwise_cons] at hp
      have hnk : ¬ sameVoteKey a b := hp.1 b (by simp)
      have ha : voteTripleMatch uid iid ity a = true :=
        (List.mem_filter.mp (show a ∈ votesFor rows uid iid ity by rw [hl]; simp)).2
      have hb : voteTripleMatch uid iid ity b = true :=
        (List.mem_filter.mp (show b ∈ votesFor rows uid iid ity by rw [hl]; simp)).2
      exact hnk (sameVoteKey_of_match uid iid ity ha hb)

/-- Under the uniqueness constraint a positive lookup pins down the whole
triple row set. -/
theorem votesFor_eq_singleton_of_unique (rows : List Vote) (uid iid : String) (ity : ItemType)
    {v : Vote} (hu : votesUniqueConstraint rows)
    (hv : findExistingVote rows uid iid ity = some v) :
    votesFor rows uid iid ity = [v] := by
  have hlen := votesFor_length_le_one rows uid iid ity hu
  cases hl : votesFor rows uid iid ity with
  | nil => rw [findExistingVote, hl] at hv; simp at hv
  | cons a t =>
    have hav : a = v := by rw [findExistingVote, hl] at hv; simpa using hv
    subst hav
    cases t with
    | nil => rfl
    | cons b t2 => rw [hl] at hlen; simp at hlen

/-! Branch equations of the votes handlers. -/

/-- Insert branch of castVote. -/
theorem castVote_insert_eq (db : VoteDB) (uid : String) (b : VoteBody) (newId : String)
    (now : Int) (h1 : itemExists db b.itemId b.itemType = true)
    (h2 : findExistingVote db.votes uid b.itemId b.itemType = none) :
    castVote db uid b newId now =
      (⟨db.questions, db.answers,
          db.votes ++ [⟨newId, uid, b.itemId, b.itemType, b.voteType, now⟩]⟩,
        .ok ⟨some ⟨newId, uid, b.itemId, b.itemType, b.voteType, now⟩,
             getItemVoteCounts
               (db.votes ++ [⟨newId, uid, b.itemId, b.itemType, b.voteType, now⟩])
               b.itemId b.itemType,
             some b.voteType⟩ "Vote recorded successfully") := by
  simp [castVote, h1, h2]

/-- Toggle-off branch of castVote. -/
theorem castVote_toggleOff_eq (db : VoteDB) (uid : String) (b : VoteBody) (newId : String)
    (now : Int) {ev : Vote} (h1 : itemExists db b.itemId b.itemType = true)
    (h2 : findExistingVote db.votes uid b.itemId b.itemType = some ev)
    (h3 : ev.voteType = b.voteType) :
    castVote db uid b newId now =
      (⟨db.questions, db.answers, db.votes.filter (fun v => v.id != ev.id)⟩,
        .ok ⟨none,
             getItemVoteCounts (db.votes.filter (fun v => v.id != ev.id)) b.itemId b.itemType,
             none⟩ "Vote removed successfully") := by
  simp [castVote, h1, h2, h3]

/-- Switch branch of castVote. -/
theorem castVote_switch_eq (db : VoteDB) (uid : String) (b : VoteBody) (newId : String)
    (now : Int) {ev : Vote} (h1 : itemExists db b.itemId b.itemType = true)
    (h2 : findExistingVote db.votes uid b.itemId b.itemType = some ev)
    (h3 : ¬ ev.voteType = b.voteType) :
    castVote db uid b newId now =
      (⟨db.questions, db.answers,
          db.votes.map (fun v =>
            if v.id == ev.id then { v with voteType := b.voteType, createdAt := now } else v)⟩,
        .ok ⟨some { ev with voteType := b.voteType, createdAt := now },
             getItemVoteCounts
               (db.votes.map (fun v =>
                 if v.id == ev.id then { v with voteType := b.voteType, createdAt := now } else v))
               b.itemId b.itemType,
             some b.voteType⟩ "Vote recorded successfully") := by
  simp [castVote, h1, h2, h3]

/-- Switch update map does not touch the key columns. -/
theorem switchUpd_match (uid iid : String) (ity : ItemType) (evId : String) (vt : VoteType)
    (now : Int) (v : Vote) :
    voteTripleMatch uid iid ity
        (if v.id == evId then { v with voteType := vt, createdAt := now } else v)
      = voteTripleMatch uid iid ity v := by
  unfold voteTripleMatch
  split <;> rfl

/-- C3: for every target and every ledger state, `getItemVoteCounts`
returns upvotes equal to the number of vote rows of that target with
direction upvote, downvotes equal to the number with direction downvote,
and a net value (`total`) exactly equal to upvotes minus downvotes; the
counts are a function of the live vote rows alone (no cached counter
appears in the state). -/
theorem C3_aggregation_accuracy (rows : List Vote) (iid : String) (ity : ItemType) :
    (getItemVoteCounts rows iid ity).upvotes
        = (rows.filter (fun v =>
            v.itemId == iid && v.itemType == ity && v.voteType == VoteType.upvote)).length
    ∧ (getItemVoteCounts rows iid ity).downvotes
        = (rows.filter (fun v =>
            v.itemId == iid && v.itemType == ity && v.voteType == VoteType.downvote)).length
    ∧ (getItemVoteCounts rows iid ity).total
        = ((getItemVoteCounts rows iid ity).upvotes : Int)
          - ((getItemVoteCounts rows iid ity).downvotes : Int) := by
  refine ⟨?_, ?_, rfl⟩ <;>
  · simp only [getItemVoteCounts, sqlCountNonNull_map_caseWhen, List.filter_filter]
    congr 1
    refine List.filter_congr fun v _ => ?_
    cases h1 : v.itemId == iid <;> cases h2 : v.itemType == ity <;>
      cases h3 : v.voteType == VoteType.upvote <;> cases h4 : v.voteType == VoteType.downvote <;>
      simp [voteTargetWhere, h1, h2, h3, h4]

/-- C1: castVote has toggle and switch semantics. With the target existing:
if no vote of the voter on the target exists, castVote appends a vote row
with the given direction and returns that direction; if a vote with the
same direction exists, it deletes the row and returns a null direction; if
a vote with a different direction exists, it updates the row to the new
direction refreshing its timestamp and returns the new direction. Casting
the same direction twice in a row leaves no vote for the triple, and
casting direction A then a different direction B leaves exactly one vote
carrying direction B. -/
theorem C1_castVote_toggle_switch
    (db : VoteDB) (uid : String) (b : VoteBody) (newId : String) (now : Int)
    (hItem : itemExists db b.itemId b.itemType = true) :
    (votesFor db.votes uid b.itemId b.itemType = [] →
      (castVote db uid b newId now).2
          = .ok ⟨some ⟨newId, uid, b.itemId, b.itemType, b.voteType, now⟩,
                getItemVoteCounts
                  (db.votes ++ [⟨newId, uid, b.itemId, b.itemType, b.voteType, now⟩])
                  b.itemId b.itemType,
                some b.voteType⟩ "Vote recorded successfully"
      ∧ votesFor (castVote db uid b newId now).1.votes uid b.itemId b.itemType
          = [⟨newId, uid, b.itemId, b.itemType, b.voteType, now⟩])
    ∧ (∀ ev, findExistingVote db.votes uid b.itemId b.itemType = some ev →
        ev.voteType = b.voteType →
        (castVote db uid b newId now).2
            = .ok ⟨none,
                  getItemVoteCounts (db.votes.filter (fun v => v.id != ev.id))
                    b.itemId b.itemType,
                  none⟩ "Vote removed successfully"
        ∧ (votesUniqueConstraint db.votes →
            votesFor (castVote db uid b newId now).1.votes uid b.itemId b.itemType = []))
    ∧ (∀ ev, findExistingVote db.votes uid b.itemId b.itemType = some ev →
        ev.voteType ≠ b.voteType →
        (castVote db uid b newId now).2
            = .ok ⟨some { ev with voteType := b.voteType, createdAt := now },
                  getItemVoteCounts (castVote db uid b newId now).1.votes
                    b.itemId b.itemType,
                  some b.voteType⟩ "Vote recorded successfully"
        ∧ (votesUniqueConstraint db.votes →
            votesFor (castVote db uid b newId now).1.votes uid b.itemId b.itemType
              = [{ ev with voteType := b.voteType, createdAt := now }]))
    ∧ (votesFor db.votes uid b.itemId b.itemType = [] →
        ∀ (newId2 : String) (now2 : Int),
          votesFor (castVote (castVote db uid b newId now).1 uid b newId2 now2).1.votes
              uid b.itemId b.itemType = [])
    ∧ (votesFor db.votes uid b.itemId b.itemType = [] →
        ∀ (d2 : VoteType), d2 ≠ b.voteType → ∀ (newId2 : String) (now2 : Int),
          votesFor
              (castVote (castVote db uid b newId now).1 uid
                ⟨b.itemId, b.itemType, d2⟩ newId2 now2).1.votes
              uid b.itemId b.itemType
            = [⟨newId, uid, b.itemId, b.itemType, d2, now2⟩]) := by
  have hInsert : votesFor db.votes uid b.itemId b.itemType = [] →
      (castVote db uid b newId now).1
        = ⟨db.questions, db.answers,
            db.votes ++ [⟨newId, uid, b.itemId, b.itemType, b.voteType, now⟩]⟩ := by
    intro hE
    rw [castVote_insert_eq db uid b newId now hItem
      ((findExistingVote_eq_none_iff db.votes uid b.itemId b.itemType).mpr hE)]
  refine ⟨?_, ?_, ?_, ?_, ?_⟩
  · intro hE
    rw [castVote_insert_eq db uid b newId now hItem
      ((findExistingVote_eq_none_iff db.votes uid b.itemId b.itemType).mpr hE)]
    refine ⟨rfl, ?_⟩
    rw [votesFor_append, hE]
    simp [votesFor, voteTripleMatch]
  · intro ev h2 h3
    rw [castVote_toggleOff_eq db uid b newId now hItem h2 h3]
    refine ⟨rfl, ?_⟩
    intro hu
    rw [votesFor_filter, votesFor_eq_singleton_of_unique db.votes uid b.itemId b.itemType hu h2]
    simp
  · intro ev h2 h3
    rw [castVote_switch_eq db uid b newId now hItem h2 h3]
    refine ⟨rfl, ?_⟩
    intro hu
    rw [votesFor_map db.votes _ uid b.itemId b.itemType
      (switchUpd_match uid b.itemId b.itemType ev.id b.voteType now),
      votesFor_eq_singleton_of_unique db.votes uid b.itemId b.itemType hu h2]
    simp
  · intro hE newId2 now2
    rw [hInsert hE]
    have hF : findExistingVote
        (db.votes ++ [⟨newId, uid, b.itemId, b.itemType, b.voteType, now⟩])
        uid b.itemId b.itemType = some ⟨newId, uid, b.itemId, b.itemType, b.voteType, now⟩ := by
      rw [findExistingVote, votesFor_append, hE]
      simp [votesFor, voteTripleMatch]
    rw [castVote_toggleOff_eq _ uid b newId2 now2 (by cases hb : b.itemType <;> simpa [itemExists, hb] using hItem) hF rfl]
    rw [votesFor_filter, votesFor_append, hE]
    simp [votesFor, voteTripleMatch]
  · intro hE d2 hd2 newId2 now2
    rw [hInsert hE]
    have hF : findExistingVote
        (db.votes ++ [⟨newId, uid, b.itemId, b.itemType, b.voteType, now⟩])
        uid b.itemId b.itemType = some ⟨newId, uid, b.itemId, b.itemType, b.voteType, now⟩ := by
      rw [findExistingVote, votesFor_append, hE]
      simp [votesFor, voteTripleMatch]
    rw [castVote_switch_eq _ uid ⟨b.itemId, b.itemType, d2⟩ newId2 now2
      (by cases hb : b.itemType <;> simpa [itemExists, hb] using hItem) hF
      (by simpa using fun h => hd2 h.symm)]
    rw [votesFor_map _ _ uid b.itemId b.itemType
      (switchUpd_match uid b.itemId b.itemType newId d2 now2),
      votesFor_append, hE]
    simp [votesFor, voteTripleMatch]

/-- Witness for C1 at a concrete ledger: inserting an upvote on question q1
and casting the same direction again leaves the triple without a vote. -/
theorem C1_castVote_toggle_switch_witness :
    itemExists sampleVoteDB "q1" ItemType.question = true
    ∧ votesFor (castVote sampleVoteDB "u1" ⟨"q1", .question, .upvote⟩ "v1" 5).1.votes
        "u1" "q1" ItemType.question = [⟨"v1", "u1", "q1", .question, .upvote, 5⟩]
    ∧ votesFor
        (castVote (castVote sampleVoteDB "u1" ⟨"q1", .question, .upvote⟩ "v1" 5).1
          "u1" ⟨"q1", .question, .upvote⟩ "v2" 6).1.votes
        "u1" "q1" ItemType.question = [] :=
  have h := C1_castVote_toggle_switch sampleVoteDB "u1" ⟨"q1", .question, .upvote⟩ "v1" 5
    (by decide)
  ⟨by decide, (h.1 (by decide)).2, h.2.2.2.1 (by decide) "v2" 6⟩

/-- Each ledger operation preserves admissibility for the uniqueness
constraint. -/
theorem applyOp_preserves_unique (db : VoteDB) (op : LedgerOp)
    (hu : votesUniqueConstraint db.votes) : votesUniqueConstraint (applyOp db op).votes := by
  cases op with
  | removeOp uid iid ity =>
    show votesUniqueConstraint (removeVoteCore db uid iid ity).1.votes
    unfold removeVoteCore
    by_cases h1 : itemExists db iid ity
    · simp only [h1, if_true]
      cases hF : findExistingVote db.votes uid iid ity with
      | none => exact hu
      | some ev => exact hu.sublist (List.filter_sublist db.votes)
    · simp only [h1, if_false]
      exact hu
  | castOp uid b newId now =>
    show votesUniqueConstraint (castVote db uid b newId now).1.votes
    by_cases h1 : itemExists db b.itemId b.itemType
    · cases hF : findExistingVote db.votes uid b.itemId b.itemType with
      | none =>
        rw [castVote_insert_eq db uid b newId now h1 hF]
        show votesUniqueConstraint
          (db.votes ++ [⟨newId, uid, b.itemId, b.itemType, b.voteType, now⟩])
        unfold votesUniqueConstraint at *
        rw [List.pairwise_append]
        refine ⟨hu, by simp, ?_⟩
        intro a ha v hv
        have hv2 : v = ⟨newId, uid, b.itemId, b.itemType, b.voteType, now⟩ := by
          simpa using hv
        subst hv2
        intro hk
        have hmatch : voteTripleMatch uid b.itemId b.itemType a = true := by
          refine (voteTripleMatch_iff uid b.itemId b.itemType a).mpr ?_
          exact ⟨hk.1, hk.2.1, hk.2.2⟩
        have hmem : a ∈ votesFor db.votes uid b.itemId b.itemType :=
          List.mem_filter.mpr ⟨ha, hmatch⟩
        rw [(findExistingVote_eq_none_iff db.votes uid b.itemId b.itemType).mp hF] at hmem
        exact List.not_mem_nil a hmem
      | some ev =>
        by_cases h3 : ev.voteType = b.voteType
        · rw [castVote_toggleOff_eq db uid b newId now h1 hF h3]
          exact hu.sublist (List.filter_sublist db.votes)
        · rw [castVote_switch_eq db uid b newId now h1 hF h3]
          show votesUniqueConstraint (db.votes.map _)
          unfold votesUniqueConstraint at *
          rw [List.pairwise_map]
          refine hu.imp ?_
          intro a c hnk hk
          apply hnk
          revert hk
          unfold sameVoteKey
          split <;> split <;> exact fun hk => hk
    · unfold castVote
      simp only [h1, if_false]
      exact hu

/-- C2: the uniqueness of one vote row per (voter, target id, target kind)
triple is enforced by the `votes_user_item_unique` constraint itself — any
row set the constraint admits has at most one row per triple — and in
addition every sequence of castVote and removeVote operations starting from
a constraint-admissible state keeps the state admissible. -/
theorem C2_vote_uniqueness :
    (∀ rows : List Vote, votesUniqueConstraint rows →
      ∀ (uid iid : String) (ity : ItemType), (votesFor rows uid iid ity).length ≤ 1)
    ∧ (∀ (db : VoteDB) (ops : List LedgerOp),
        votesUniqueConstraint db.votes → votesUniqueConstraint (applyOps db ops).votes) := by
  refine ⟨fun rows hu uid iid ity => votesFor_length_le_one rows uid iid ity hu, ?_⟩
  intro db ops
  induction ops generalizing db with
  | nil => exact fun hu => hu
  | cons op rest ih => exact fun hu => ih (applyOp db op) (applyOp_preserves_unique db op hu)

/-- Witness for C2 at a concrete ledger: a one-row state is admissible,
owns at most one row for its triple, and stays admissible under a
vote-switch followed by an explicit removal. -/
theorem C2_vote_uniqueness_witness :
    (votesFor sampleVoteDB2.votes "u1" "q1" ItemType.question).length ≤ 1
    ∧ votesUniqueConstraint
        (applyOps sampleVoteDB2
          [.castOp "u1" ⟨"q1", .question, .downvote⟩ "v9" 9,
           .removeOp "u1" "q1" .question]).votes :=
  ⟨C2_vote_uniqueness.1 sampleVoteDB2.votes (by unfold votesUniqueConstraint; decide)
      "u1" "q1" ItemType.question,
    C2_vote_uniqueness.2 sampleVoteDB2 _ (by unfold votesUniqueConstraint; decide)⟩

/-- C4: the explicit removal endpoint reports absence as an error, not a
no-op: with the target existing, if the voter has no vote on it the
handler answers 404 with the message "No vote found for this item" and the
state is returned unchanged; if a vote is found, exactly the rows carrying
its id are deleted and the success response carries the freshly recomputed
tallies together with a null user vote direction (and under the uniqueness
constraint the triple is left without any row). -/
theorem C4_removeVote_absence_error (db : VoteDB) (uid iid : String) (ity : ItemType)
    (hItem : itemExists db iid ity = true) :
    (votesFor db.votes uid iid ity = [] →
        removeVoteCore db uid iid ity = (db, .err "No vote found for this item" 404))
    ∧ (∀ ev, findExistingVote db.votes uid iid ity = some ev →
        (removeVoteCore db uid iid ity).1.votes = db.votes.filter (fun v => v.id != ev.id)
        ∧ (removeVoteCore db uid iid ity).2
            = .ok ⟨getItemVoteCounts (db.votes.filter (fun v => v.id != ev.id)) iid ity, none⟩
                "Vote removed successfully"
        ∧ (votesUniqueConstraint db.votes →
            votesFor (removeVoteCore db uid iid ity).1.votes uid iid ity = [])) := by
  constructor
  · intro hE
    have hF := (findExistingVote_eq_none_iff db.votes uid iid ity).mpr hE
    simp [removeVoteCore, hItem, hF]
  · intro ev hF
    have heq : removeVoteCore db uid iid ity =
        (⟨db.questions, db.answers, db.votes.filter (fun v => v.id != ev.id)⟩,
          .ok ⟨getItemVoteCounts (db.votes.filter (fun v => v.id != ev.id)) iid ity, none⟩
            "Vote removed successfully") := by
      simp [removeVoteCore, hItem, hF]
    rw [heq]
    refine ⟨rfl, rfl, ?_⟩
    intro hu
    rw [show (⟨db.questions, db.answers, db.votes.filter (fun v => v.id != ev.id)⟩ : VoteDB).votes
        = db.votes.filter (fun v => v.id != ev.id) from rfl]
    rw [votesFor_filter, votesFor_eq_singleton_of_unique db.votes uid iid ity hu hF]
    simp

/-- Witness for C4 at a concrete ledger: a voter without a vote receives
the 404, and removing the present vote of u1 empties its triple. -/
theorem C4_removeVote_absence_error_witness :
    removeVoteCore sampleVoteDB2 "u2" "q1" ItemType.question
        = (sampleVoteDB2, .err "No vote found for this item" 404)
    ∧ votesFor (removeVoteCore sampleVoteDB2 "u1" "q1" ItemType.question).1.votes
        "u1" "q1" ItemType.question = [] :=
  ⟨(C4_removeVote_absence_error sampleVoteDB2 "u2" "q1" ItemType.question (by decide)).1
      (by decide),
    ((C4_removeVote_absence_error sampleVoteDB2 "u1" "q1" ItemType.question (by decide)).2
      sampleVoteRow (by decide)).2.2 (by unfold votesUniqueConstraint; decide)⟩

/-- Counterexample for C8: an unclassified `Error` whose message carries
internal connection detail is answered with status 500 and that very
message as the response body — not the generic message the claim
requires. -/
theorem C8_internal_error_leak_counterexample :
    handleApiError (.errObj "connect ECONNREFUSED 127.0.0.1:5432")
        = ⟨"connect ECONNREFUSED 127.0.0.1:5432", 500⟩
    ∧ "connect ECONNREFUSED 127.0.0.1:5432" ≠ "Internal server error" := by
  decide

/-- C8 (amended): only a non-`Error` throwable is answered with the
generic "Internal server error" body; an unclassified `Error` instance —
one whose message is not the authentication marker and contains neither
"not found" nor "unauthorized" — is answered with status 500 carrying its
own message verbatim in the response body, so internal error detail does
reach the caller (full detail is additionally logged server-side, outside
this response model). -/
theorem C8_internal_error_detail (msg : String)
    (h1 : msg ≠ "Authentication required")
    (h2 : strContainsSub msg "not found" = false)
    (h3 : strContainsSub msg "unauthorized" = false) :
    handleApiError (.errObj msg) = ⟨msg, 500⟩
    ∧ handleApiError .nonError = ⟨"Internal server error", 500⟩ := by
  refine ⟨?_, rfl⟩
  have hb : (msg == "Authentication required") = false := by simpa using h1
  simp [handleApiError, hb, h2, h3]

/-- Witness for C8 at a concrete message. -/
theorem C8_internal_error_detail_witness :
    handleApiError (.errObj "unexpected token in JSON")
        = ⟨"unexpected token in JSON", 500⟩
    ∧ handleApiError .nonError = ⟨"Internal server error", 500⟩ :=
  C8_internal_error_detail "unexpected token in JSON" (by decide) (by decide) (by decide)

/-! Lemmas about the slug transform. -/

/-- ASCII lowering of an in-range code point round-trips through
`Char.ofNat`. -/
theorem charToNat_ofNat_lower (n : Nat) (h1 : 65 ≤ n) (h2 : n ≤ 90) :
    (Char.ofNat (n + 32)).toNat = n + 32 := by
  interval_cases n <;> decide

/-- Lowering a character twice is lowering it once. -/
theorem jsLowerChar_idem (c : Char) : jsLowerChar (jsLowerChar c) = jsLowerChar c := by
  unfold jsLowerChar
  by_cases h : 65 ≤ c.toNat ∧ c.toNat ≤ 90
  · simp only [h, if_true]
    have ht := charToNat_ofNat_lower c.toNat h.1 h.2
    have : ¬ (65 ≤ (Char.ofNat (c.toNat + 32)).toNat ∧ (Char.ofNat (c.toNat + 32)).toNat ≤ 90) := by
      rw [ht]; omega
    simp [this]
  · simp [h]

/-- Characters produced by the whitespace collapse are never whitespace. -/
theorem collapseWsAux_no_space (l : List Char) :
    ∀ (flag : Bool), ∀ c ∈ collapseWsAux flag l, jsSpaceChar c = false := by
  induction l with
  | nil => intro flag c hc; simp [collapseWsAux] at hc
  | cons a t ih =>
    intro flag c hc
    cases h : jsSpaceChar a with
    | true =>
      simp only [collapseWsAux, h] at hc
      cases flag with
      | true => exact ih true c (by simpa using hc)
      | false =>
        rcases List.mem_cons.mp (by simpa using hc) with h2 | h2
        · subst h2; decide
        · exact ih true c h2
    | false =>
      simp only [collapseWsAux, h] at hc
      rcases List.mem_cons.mp (by simpa using hc) with h2 | h2
      · subst h2; exact h
      · exact ih false c h2

/-- Characters produced by the whitespace collapse are hyphens or input
characters. -/
theorem collapseWsAux_mem (l : List Char) :
    ∀ (flag : Bool), ∀ c ∈ collapseWsAux flag l, c = '-' ∨ c ∈ l := by
  induction l with
  | nil => intro flag c hc; simp [collapseWsAux] at hc
  | cons a t ih =>
    intro flag c hc
    cases h : jsSpaceChar a with
    | true =>
      simp only [collapseWsAux, h] at hc
      cases flag with
      | true =>
        rcases ih true c (by simpa using hc) with h2 | h2
        · exact Or.inl h2
        · exact Or.inr (List.mem_cons_of_mem a h2)
      | false =>
        rcases List.mem_cons.mp (by simpa using hc) with h2 | h2
        · exact Or.inl h2
        · rcases ih true c h2 with h3 | h3
          · exact Or.inl h3
          · exact Or.inr (List.mem_cons_of_mem a h3)
    | false =>
      simp only [collapseWsAux, h] at hc
      rcases List.mem_cons.mp (by simpa using hc) with h2 | h2
      · exact Or.inr (by simp [h2])
      · rcases ih false c h2 with h3 | h3
        · exact Or.inl h3
        · exact Or.inr (List.mem_cons_of_mem a h3)

/-- On a whitespace-free list the collapse is the identity. -/
theorem collapseWsAux_eq_self (l : List Char) (h : ∀ c ∈ l, jsSpaceChar c = false) :
    collapseWsAux false l = l := by
  induction l with
  | nil => rfl
  | cons a t ih =>
    unfold collapseWsAux
    have ha : jsSpaceChar a = false := h a (by simp)
    simp only [ha, Bool.false_eq_true, if_false]
    rw [ih fun c hc => h c (List.mem_cons_of_mem a hc)]

/-- A `dropWhile` whose predicate fails on every element is the
identity. -/
theorem dropWhile_eq_self (l : List Char) (p : Char → Bool) (h : ∀ c ∈ l, p c = false) :
    l.dropWhile p = l := by
  cases l with
  | nil => rfl
  | cons a t =>
    rw [List.dropWhile_cons]
    simp [h a (by simp)]

/-- On a whitespace-free list the trim is the identity. -/
theorem jsTrim_eq_self (l : List Char) (h : ∀ c ∈ l, jsSpaceChar c = false) :
    jsTrim l = l := by
  unfold jsTrim
  rw [dropWhile_eq_self l _ h]
  rw [dropWhile_eq_self l.reverse _ fun c hc => h c (List.mem_reverse.mp hc)]
  exact List.reverse_reverse l

/-- On a list of lower-fixed characters the lowering is the identity. -/
theorem jsToLowerCase_eq_self (l : List Char) (h : ∀ c ∈ l, jsLowerChar c = c) :
    jsToLowerCase l = l := by
  unfold jsToLowerCase
  rw [List.map_congr_left h]
  exact List.map_id l

/-- C9: the slug transformation is a pure function of its input;
on "  Machine Learning  " it yields "machine-learning", and it is
idempotent — applied to any of its own outputs it returns the output
unchanged. -/
theorem C9_slug_normalization :
    slugTransform "  Machine Learning  " = "machine-learning"
    ∧ ∀ s : String, slugTransform (slugTransform s) = slugTransform s := by
  constructor
  · decide
  · intro s
    unfold slugTransform
    rw [show (List.asString (collapseWsAux false (jsToLowerCase (jsTrim s.toList)))).toList
        = collapseWsAux false (jsToLowerCase (jsTrim s.toList)) from rfl]
    have hsp : ∀ c ∈ collapseWsAux false (jsToLowerCase (jsTrim s.toList)),
        jsSpaceChar c = false :=
      collapseWsAux_no_space (jsToLowerCase (jsTrim s.toList)) false
    have hfix : ∀ c ∈ collapseWsAux false (jsToLowerCase (jsTrim s.toList)),
        jsLowerChar c = c := by
      intro c hc
      rcases collapseWsAux_mem (jsToLowerCase (jsTrim s.toList)) false c hc with h | h
      · subst h; decide
      · unfold jsToLowerCase at h
        rcases List.mem_map.mp h with ⟨c0, _, hc0⟩
        subst hc0
        exact jsLowerChar_idem c0
    rw [jsTrim_eq_self _ hsp, jsToLowerCase_eq_self _ hfix, collapseWsAux_eq_self _ hsp]

/-- C5 (divergence witness): an out-of-range limit (60) or page (0) is
rejected, but the response is HTTP 500 carrying the zod message — never
the InvalidArgument 400 of the claim — because `handleApiError` has no
branch for validation errors; and an absent limit parameter does not
default to 20: `searchParams.get` yields null, `Number(null)` is 0, and
the positivity check rejects it with the same 500. -/
theorem C5_pagination_validation_divergence :
    listQuestionsRoute mismatchFeedDB (some "1") (some "60") (some "recent") (some "science")
        = .err "Number must be less than or equal to 50" 500
    ∧ listQuestionsRoute mismatchFeedDB (some "0") (some "20") (some "recent") (some "science")
        = .err "Number must be greater than 0" 500
    ∧ listQuestionsRoute mismatchFeedDB (some "1") none (some "recent") (some "science")
        = .err "Number must be greater than 0" 500
    ∧ (500 ≠ 400) :=
  ⟨rfl, rfl, rfl, by decide⟩

/-- C6 (divergence witness): the page rows are filtered by topic NAME
overlap while the total is counted by topic SLUG. With the topic named
"science" under slug "science-topic" and one tagged question: filtering by
the slug returns an empty page although the slug-based total is 1, and
filtering by the name returns the question although the slug-based total
is 0. -/
theorem C6_topic_filter_divergence :
    listQuestionsRoute mismatchFeedDB (some "1") (some "20") (some "recent")
        (some "science-topic")
        = .ok [] "Questions retrieved successfully" ⟨1, 20, 1, mathCeilDiv 1 20⟩
    ∧ topicSlugCountJoin mismatchFeedDB "science-topic" = 1
    ∧ listQuestionsRoute mismatchFeedDB (some "1") (some "20") (some "recent") (some "science")
        = .ok [⟨"q1", 100⟩] "Questions retrieved successfully" ⟨1, 20, 0, mathCeilDiv 0 20⟩
    ∧ topicSlugCountJoin mismatchFeedDB "science" = 0 :=
  ⟨rfl, rfl, rfl, rfl⟩

/-- Counterexample for C7: a successful listing response whose page number
(1) strictly exceeds its totalPages (0) and whose data page is nonetheless
not empty — the name-filtered page keeps the question while the slug-based
total is 0. -/
theorem C7_beyond_totalPages_counterexample :
    listQuestionsRoute mismatchFeedDB (some "1") (some "20") (some "recent") (some "science")
        = .ok [⟨"q1", 100⟩] "Questions retrieved successfully" ⟨1, 20, 0, mathCeilDiv 0 20⟩
    ∧ mathCeilDiv 0 20 < 1
    ∧ ([⟨"q1", 100⟩] : List QuestionRow) ≠ [] := by
  refine ⟨rfl, ?_, by decide⟩
  have h : mathCeilDiv 0 20 = 0 := by unfold mathCeilDiv; norm_num
  rw [h]
  decide

/-- Bounds of a successfully parsed coerced positive integer field. -/
theorem zodPosIntField_ok_bounds (dflt : Int) (mb : Option Int) (v : JsVal) (n : Int)
    (hd : 0 < dflt) (hdm : ∀ m, mb = some m → dflt ≤ m)
    (h : zodPosIntField dflt mb v = .ok n) :
    0 < n ∧ ∀ m, mb = some m → n ≤ m := by
  unfold zodPosIntField at h
  cases v with
  | undef =>
    injection h with h2
    subst h2
    exact ⟨hd, hdm⟩
  | jsNull => simp [jsToNumber] at h
  | jsOther => simp [jsToNumber] at h
  | jsStr s =>
    simp only [jsToNumber] at h
    cases hk : jsNumberString s with
    | none => rw [hk] at h; exact absurd h (by simp)
    | some k =>
      rw [hk] at h
      by_cases hpos : k ≤ 0
      · simp [hpos] at h
      · simp only [hpos, if_false] at h
        cases mb with
        | none =>
          injection h with h2
          subst h2
          exact ⟨by omega, fun m hm => nomatch hm⟩
        | some m =>
          by_cases hm : m < k
          · simp [hm] at h
          · simp only [hm, if_false] at h
            injection h with h2
            subst h2
            exact ⟨by omega, fun m2 hm2 => by injection hm2 with e; omega⟩

/-- A query whose topic parameter arrives as null never parses: the
`optional()` string rejects null. -/
theorem questionsQuerySchema_topic_jsNull (a b c : JsVal) (q : QuestionsQuery) :
    questionsQuerySchema a b c .jsNull ≠ .ok q := by
  unfold questionsQuerySchema
  cases zodPosIntField 1 none a with
  | error m => simp
  | ok p =>
    cases zodPosIntField 20 (some 50) b with
    | error m => simp
    | ok l =>
      cases zodSortField c with
      | error m => simp
      | ok s => simp [zodOptStringField]

/-- Inversion of a successful query parse with a string topic parameter:
the topic filter is that string, and page and limit landed in range. -/
theorem questionsQuerySchema_ok_inv (a b c : JsVal) (f : String) (q : QuestionsQuery)
    (h : questionsQuerySchema a b c (.jsStr f) = .ok q) :
    q.topic = some f ∧ 0 < q.page ∧ 0 < q.limit ∧ q.limit ≤ 50 := by
  unfold questionsQuerySchema at h
  split at h
  · exact absurd h (by simp)
  · rename_i p hp
    split at h
    · exact absurd h (by simp)
    · rename_i l hl
      split at h
      · exact absurd h (by simp)
      · rename_i s hs
        split at h
        · exact absurd h (by simp)
        · rename_i t ht
          have ht2 : t = some f := by
            have h3 : (Except.ok (some f) : Except String (Option String)) = .ok t := ht
            injection h3 with h2
            exact h2.symm
          have hq : q = ⟨p, l, s, t⟩ := by injection h with h2; exact h2.symm
          subst hq
          have hpb := zodPosIntField_ok_bounds 1 none a p (by norm_num)
            (fun m hm => nomatch hm) hp
          have hlb := zodPosIntField_ok_bounds 20 (some 50) b l (by norm_num)
            (fun m hm => by injection hm with e; omega) hl
          exact ⟨by simpa using ht2, hpb.1, hlb.1, hlb.2 50 rfl⟩

/-- Sorting the grouped rows does not change how many there are. -/
theorem length_sortQuestions (d : FeedDB) (s : SortKind) (l : List QuestionRow) :
    (sortQuestions d s l).length = l.length :=
  (List.perm_insertionSort _ l).length_eq

/-- Characterisation of `Math.ceil(total / limit)` for a positive limit. -/
theorem mathCeilDiv_bounds (t : Nat) (l : Int) (hl : 0 < l) :
    (t : Int) ≤ mathCeilDiv t l * l ∧ l * (mathCeilDiv t l - 1) < (t : Int) := by
  unfold mathCeilDiv
  have hlq : (0 : ℚ) < (l : ℚ) := by exact_mod_cast hl
  constructor
  · have h1 : ((t : ℚ) / (l : ℚ)) ≤ ((⌈(t : ℚ) / (l : ℚ)⌉ : ℤ) : ℚ) := Int.le_ceil _
    rw [div_le_iff₀ hlq] at h1
    exact_mod_cast h1
  · have h2 : (⌈(t : ℚ) / (l : ℚ)⌉ - 1) < ⌈(t : ℚ) / (l : ℚ)⌉ := by omega
    have h3 := Int.lt_ceil.mp h2
    rw [lt_div_iff₀ hlq] at h3
    have h4 : (l : ℚ) * ((⌈(t : ℚ) / (l : ℚ)⌉ : ℤ) - 1 : ℤ) < (t : ℚ) := by
      push_cast at h3 ⊢
      linarith
    exact_mod_cast h4

/-- C7 (amended): every successful listing response reports
`totalPages = Math.ceil(total / limit)`, and that value satisfies the
ceiling characterisation `total ≤ totalPages * limit` and
`limit * (totalPages - 1) < total`. A request without a topic parameter
never succeeds (the schema rejects the null that `searchParams.get`
produces for it), so every success carries a topic filter; whenever the
number of questions the page filter (topic NAME overlap) selects is at
most the reported total (counted by topic SLUG) — in particular when the
filter matches no topic name or when names and slugs coincide — a page
strictly beyond totalPages yields an empty data page with success
status. -/
theorem C7_pagination_math (d : FeedDB) (pageP limitP sortP : Option String) :
    (∀ rows msg meta, listQuestionsRoute d pageP limitP sortP none ≠ .ok rows msg meta)
    ∧ (∀ (f : String) (rows : List QuestionRow) (msg : String) (meta : PaginationMeta),
        listQuestionsRoute d pageP limitP sortP (some f) = .ok rows msg meta →
        meta.totalPages = mathCeilDiv meta.total meta.limit
        ∧ (meta.total : Int) ≤ meta.totalPages * meta.limit
        ∧ meta.limit * (meta.totalPages - 1) < (meta.total : Int)
        ∧ ((d.questions.filter (havingTopicNameOverlap d f)).length ≤ meta.total →
            meta.totalPages < meta.page → rows = [])) := by
  constructor
  · intro rows msg meta h
    unfold listQuestionsRoute at h
    cases hq : questionsQuerySchema (searchParamGet pageP) (searchParamGet limitP)
        (searchParamGet sortP) (searchParamGet none) with
    | error m => simp [hq] at h
    | ok q => exact questionsQuerySchema_topic_jsNull _ _ _ q hq
  · intro f rows msg meta h
    unfold listQuestionsRoute at h
    cases hq : questionsQuerySchema (searchParamGet pageP) (searchParamGet limitP)
        (searchParamGet sortP) (searchParamGet (some f)) with
    | error m => simp [hq] at h
    | ok q =>
      obtain ⟨htop, hpp, hlp, hl50⟩ := questionsQuerySchema_ok_inv _ _ _ f q hq
      simp only [hq, htop, getPaginationParams, ListResp.ok.injEq] at h
      obtain ⟨hrows, hmsg, hmeta⟩ := h
      subst hmeta
      dsimp only
      refine ⟨rfl, (mathCeilDiv_bounds _ _ hlp).1, (mathCeilDiv_bounds _ _ hlp).2, ?_⟩
      intro hF hPage
      subst hrows
      have hceil := (mathCeilDiv_bounds (topicSlugCountJoin d f) q.limit hlp).1
      have hmul : mathCeilDiv (topicSlugCountJoin d f) q.limit * q.limit
          ≤ (q.page - 1) * q.limit := by
        apply mul_le_mul_of_nonneg_right (by omega) (by omega)
      have hoff : ((d.questions.filter (havingTopicNameOverlap d f)).length : Int)
          ≤ (q.page - 1) * q.limit := by
        have hFi : ((d.questions.filter (havingTopicNameOverlap d f)).length : Int)
            ≤ (topicSlugCountJoin d f : Int) := by exact_mod_cast hF
        omega
      have hlen : (sortQuestions d q.sort (d.questions.filter (havingTopicNameOverlap d f))).length
          ≤ ((q.page - 1) * q.limit).toNat := by
        rw [length_sortQuestions]
        omega
      rw [List.drop_eq_nil_of_le hlen]
      exact List.take_nil

/-- Witness for C7 at a concrete feed: a filter matching nothing, page 5,
limit 20, total 0 — the theorem applies and yields the ceiling bounds and
the empty page. -/
theorem C7_pagination_math_witness :
    listQuestionsRoute mismatchFeedDB (some "5") (some "20") (some "recent") (some "nosuch")
        = .ok [] "Questions retrieved successfully" ⟨5, 20, 0, mathCeilDiv 0 20⟩
    ∧ mathCeilDiv 0 20 < 5
    ∧ ((0 : Int) ≤ mathCeilDiv 0 20 * 20 ∧ ([] : List QuestionRow) = []) := by
  have hroute : listQuestionsRoute mismatchFeedDB (some "5") (some "20") (some "recent")
      (some "nosuch")
      = .ok [] "Questions retrieved successfully" ⟨5, 20, 0, mathCeilDiv 0 20⟩ := rfl
  have hc : mathCeilDiv 0 20 = 0 := by unfold mathCeilDiv; norm_num
  have h := (C7_pagination_math mismatchFeedDB (some "5") (some "20") (some "recent")).2
    "nosuch" [] "Questions retrieved successfully" ⟨5, 20, 0, mathCeilDiv 0 20⟩ hroute
  refine ⟨hroute, by rw [hc]; decide, ?_, ?_⟩
  · simpa using h.2.1
  · exact h.2.2.2 (by decide) (by show mathCeilDiv 0 20 < 5; rw [hc]; decide)

/-- Counterexample for C10: a malformed topic body (missing name) is
answered with Internal 500 carrying the validation message, not with the
InvalidArgument 400 of the claim. -/
theorem C10_malformed_body_counterexample :
    topicsPOST [] (.ok ⟨.undef, .jsStr "ml", .undef⟩) "t1" = ([], .err "Required" 500)
    ∧ (500 ≠ 400) :=
  ⟨rfl, by decide⟩

/-- Validation messages of the topic name field never impersonate the
authentication marker. -/
theorem zodTopicName_error_ne_auth (v : JsVal) (m : String) (h : zodTopicName v = .error m) :
    m ≠ "Authentication required" := by
  unfold zodTopicName at h
  cases v with
  | undef => injection h with h2; subst h2; decide
  | jsNull => injection h with h2; subst h2; decide
  | jsOther => injection h with h2; subst h2; decide
  | jsStr s =>
    dsimp only at h
    by_cases h1 : s.length < 1
    · rw [if_pos h1] at h; injection h with h2; subst h2; decide
    · rw [if_neg h1] at h
      by_cases h2 : 50 < s.length
      · rw [if_pos h2] at h; injection h with h3; subst h3; decide
      · rw [if_neg h2] at h; exact absurd h (by simp)

/-- Validation messages of the topic slug field never impersonate the
authentication marker. -/
theorem zodTopicSlug_error_ne_auth (v : JsVal) (m : String) (h : zodTopicSlug v = .error m) :
    m ≠ "Authentication required" := by
  unfold zodTopicSlug at h
  cases v with
  | undef => injection h with h2; subst h2; decide
  | jsNull => injection h with h2; subst h2; decide
  | jsOther => injection h with h2; subst h2; decide
  | jsStr s =>
    dsimp only at h
    by_cases h1 : s.length < 1
    · rw [if_pos h1] at h; injection h with h2; subst h2; decide
    · rw [if_neg h1] at h
      by_cases h2 : 50 < s.length
      · rw [if_pos h2] at h; injection h with h3; subst h3; decide
      · rw [if_neg h2] at h; exact absurd h (by simp)

/-- Validation messages of the topic description field never impersonate
the authentication marker. -/
theorem zodTopicDescription_error_ne_auth (v : JsVal) (m : String)
    (h : zodTopicDescription v = .error m) : m ≠ "Authentication required" := by
  unfold zodTopicDescription at h
  cases v with
  | undef => exact absurd h (by simp)
  | jsNull => injection h with h2; subst h2; decide
  | jsOther => injection h with h2; subst h2; decide
  | jsStr s =>
    dsimp only at h
    by_cases h1 : 200 < s.length
    · rw [if_pos h1] at h; injection h with h2; subst h2; decide
    · rw [if_neg h1] at h; exact absurd h (by simp)

/-- Validation messages of the topic schema never impersonate the
authentication marker. -/
theorem createTopicSchema_error_ne_auth (b : RawTopicBody) (m : String)
    (h : createTopicSchema b = .error m) : m ≠ "Authentication required" := by
  unfold createTopicSchema at h
  split at h
  · rename_i m1 h1
    injection h with h2
    subst h2
    exact zodTopicName_error_ne_auth _ _ h1
  · rename_i n hn
    split at h
    · rename_i m1 h1
      injection h with h2
      subst h2
      exact zodTopicSlug_error_ne_auth _ _ h1
    · rename_i sl hsl
      split at h
      · rename_i m1 h1
        injection h with h2
        subst h2
        exact zodTopicDescription_error_ne_auth _ _ h1
      · exact absurd h (by simp)

/-- An error whose message is not the authentication marker is never
mapped to 401. -/
theorem handleApiError_status_ne_401 (m : String) (hm : m ≠ "Authentication required") :
    (handleApiError (.errObj m)).status ≠ 401 := by
  unfold handleApiError
  have hb : (m == "Authentication required") = false := by simpa using hm
  simp only [hb, Bool.false_eq_true, if_false]
  by_cases h2 : strContainsSub m "not found" <;> by_cases h3 : strContainsSub m "unauthorized" <;>
    simp [h2, h3]

/-- C10 (amended): topic creation performs no authentication check and
never answers Unauthenticated (401) — for any body whose JSON-level
failure message is not the authentication marker (real syntax errors never
are). A body passing the schema either creates the topic or fails with
Conflict 409 when a topic with the same (transformed) name or slug already
exists; a malformed body, however, is answered with Internal 500 carrying
the validation message, not with InvalidArgument 400. -/
theorem C10_topics_post_no_auth (d : List TopicRow) (body : Except String RawTopicBody)
    (newId : String)
    (hsyn : ∀ m, body = .error m → m ≠ "Authentication required") :
    respStatus (topicsPOST d body newId).2 ≠ some 401
    ∧ (∀ raw input, body = .ok raw → createTopicSchema raw = .ok input →
        (d.any (fun t => t.name == input.name || t.slug == input.slug) = true →
          topicsPOST d body newId = (d, .err "Topic with this name or slug already exists" 409))
        ∧ (d.any (fun t => t.name == input.name || t.slug == input.slug) = false →
          topicsPOST d body newId =
            (d ++ [⟨newId, input.name, input.slug, jsOrNull input.description⟩],
              .ok ⟨newId, input.name, input.slug, jsOrNull input.description⟩
                "Topic created successfully"))) := by
  constructor
  · cases body with
    | error m =>
      have hne := hsyn m rfl
      simp only [topicsPOST, respStatus]
      intro hc
      injection hc with hc2
      exact handleApiError_status_ne_401 m hne hc2
    | ok raw =>
      cases hs : createTopicSchema raw with
      | error m =>
        have hne := createTopicSchema_error_ne_auth raw m hs
        simp only [topicsPOST, hs, respStatus]
        intro hc
        injection hc with hc2
        exact handleApiError_status_ne_401 m hne hc2
      | ok input =>
        simp only [topicsPOST, hs]
        by_cases hd : d.any (fun t => t.name == input.name || t.slug == input.slug)
        · simp [hd, respStatus]
        · simp [hd, respStatus]
  · intro raw input hb hs
    subst hb
    constructor
    · intro hd
      simp [topicsPOST, hs, hd]
    · intro hd
      simp [topicsPOST, hs, hd]

/-- Witness for C10 at a concrete body: the creation path runs without any
authentication and inserts the transformed topic. -/
theorem C10_topics_post_no_auth_witness :
    respStatus (topicsPOST []
        (.ok ⟨.jsStr " Machine Learning ", .jsStr "Machine Learning", .undef⟩) "t1").2
      ≠ some 401
    ∧ topicsPOST [] (.ok ⟨.jsStr " Machine Learning ", .jsStr "Machine Learning", .undef⟩) "t1"
        = ([⟨"t1", "machine learning", "machine-learning", none⟩],
            .ok ⟨"t1", "machine learning", "machine-learning", none⟩
              "Topic created successfully") := by
  have h := C10_topics_post_no_auth []
    (.ok ⟨.jsStr " Machine Learning ", .jsStr "Machine Learning", .undef⟩) "t1"
    (fun m hm => nomatch hm)
  refine ⟨h.1, ?_⟩
  exact (h.2 ⟨.jsStr " Machine Learning ", .jsStr "Machine Learning", .undef⟩
    ⟨"machine learning", "machine-learning", none⟩ rfl rfl).2 (by decide)

end QuoraClone
